import Mathlib

/-!
Shallow embedding of the order lifecycle and verification subsystem of the
E-Learn Store backend (src/main.py, src/backend/main.py, src/backend/schemas.py).

Two near-duplicate HTTP-layer variants exist in the repository:
* `MainApp`  embeds src/main.py          (JWT admin gate, placeholder webhook, no e-mail)
* `Backend`  embeds src/backend/main.py  (no auth on verify, live webhook, e-mail dispatch)

The document store (`database.py`, `db["order"]`) is not under src/;
its operations are modelled from the spec's Order Store Adapter:
insert, find-by-id, update-by-id, filtered list with a result cap.
-/

namespace ELearn

/-- Python truthiness of a string: truthy iff non-empty. -/
def truthyStr (s : String) : Bool :=
  if s = "" then false else true

/-- Python truthiness of an optional string field (`None` and `""` are falsy). -/
def truthyOpt : Option String → Bool
  | none => false
  | some s => truthyStr s

/-- Python `x or y` on an optional string with default `b` (used by
src/backend/main.py create_order: `data.get("status") or "submitted"`). -/
def orDefault (a : Option String) (b : String) : String :=
  match a with
  | none => b
  | some s => if s = "" then b else s

/-- A stored order document, after the fields written by the creation paths
(schemas.Order plus the endpoint-set `status`; `updated_at` refreshed by
transitions). -/
structure StoredOrder where
  email : String
  plan : String
  payment_method : String
  proof_image : Option String
  status : String
  note : Option String
  updated_at : Nat
deriving Repr, DecidableEq

/-- Modelled from the spec: the Order Store Adapter's document collection
(`database.py` is not under src/): a list of (ObjectId, document) pairs in
insertion order plus a counter used to mint fresh ids. -/
structure Store where
  docs : List (String × StoredOrder)
  counter : Nat
deriving Repr, DecidableEq

/-- `find_one({"_id": oid})`: first document whose id matches. -/
def findDocs : List (String × StoredOrder) → String → Option StoredOrder
  | [], _ => none
  | p :: rest, oid => if p.1 = oid then some p.2 else findDocs rest oid

def findOne (st : Store) (oid : String) : Option StoredOrder :=
  findDocs st.docs oid

/-- `update_one`: rewrite the first matching document with `f`. -/
def updateDocs : List (String × StoredOrder) → String → (StoredOrder → StoredOrder) →
    List (String × StoredOrder)
  | [], _, _ => []
  | p :: rest, oid, f =>
      if p.1 = oid then (p.1, f p.2) :: rest else p :: updateDocs rest oid f

/-- `update_one(...).matched_count`: 1 iff a document with the id exists. -/
def matchedCount (docs : List (String × StoredOrder)) (oid : String) : Nat :=
  match findDocs docs oid with
  | some _ => 1
  | none => 0

/-- The pair returned by `update_one`: matched count and the new collection. -/
def updateOne (st : Store) (oid : String) (f : StoredOrder → StoredOrder) : Nat × Store :=
  (matchedCount st.docs oid, ⟨updateDocs st.docs oid f, st.counter⟩)

/-- Fresh 24-hex-character ObjectId, minted from the store's counter. -/
def natToHex24 (n : Nat) : String :=
  let ds := Nat.toDigits 16 n
  String.mk (List.replicate (24 - ds.length) '0' ++ ds)

/-- `bson.ObjectId(s)` succeeds exactly on 24-character hex strings. -/
def isHexChar (c : Char) : Bool :=
  c.isDigit || (('a' ≤ c && c ≤ 'f') || ('A' ≤ c && c ≤ 'F'))

def isValidOid (s : String) : Bool :=
  s.length == 24 && s.toList.all isHexChar

/-- Status of the stored order with the given id, if present. -/
def statusOf (st : Store) (oid : String) : Option String :=
  (findOne st oid).map (·.status)

/-- Modelled from the spec: `get_documents` of the Order Store Adapter
(`database.py` is not under src/): optional equality filter on `email`
(Python-truthy parameter) and a result cap. -/
def get_documents (st : Store) (email : Option String) (limit : Nat) :
    List (String × StoredOrder) :=
  (if truthyOpt email then
    st.docs.filter (fun p => some p.2.email = email)
  else st.docs).take limit

/-- HTTPException carrying a status code and detail message. -/
structure HttpError where
  status_code : Nat
  detail : String
deriving Repr, DecidableEq

/-- The verified claims of a decoded JWT (src/main.py create_jwt payload). -/
structure TokenClaims where
  sub : String
  role : String
  iat : Nat
  exp : Nat
deriving Repr, DecidableEq

/-- A presented bearer credential: absent, unverifiable (bad signature or
malformed), or a validly signed token with its claims. -/
inductive Credential
  | missing
  | malformed
  | signed (claims : TokenClaims)
deriving Repr, DecidableEq

/-- src/main.py require_admin.  Note the exception flow of the source: the
`HTTPException(403, "Forbidden")` raised inside the `try` block is caught by
the trailing `except Exception` and re-raised as `401 "Invalid token"`, so a
validly signed, unexpired, non-admin token surfaces as 401, not 403. -/
def require_admin (now : Nat) : Credential → Except HttpError TokenClaims
  | .missing => .error ⟨401, "Not authenticated"⟩
  | .malformed => .error ⟨401, "Invalid token"⟩
  | .signed c =>
      if c.exp < now then .error ⟨401, "Token expired"⟩
      else if ¬ c.role = "admin" then .error ⟨401, "Invalid token"⟩
      else .ok c

/-- Whether require_admin rejects the credential. -/
def authFails (now : Nat) (cred : Credential) : Bool :=
  match require_admin now cred with
  | .error _ => true
  | .ok _ => false

/-- Request body of POST /api/orders/verify (src/main.py VerifyAction;
src/backend/main.py names it VerifyPayload, same fields). -/
structure VerifyAction where
  order_id : String
  action : String
  note : Option String
deriving Repr, DecidableEq

/-- `new_status = 'verified' if action == 'verify' else 'rejected'`. -/
def targetStatus (action : String) : String :=
  if action = "verify" then "verified" else "rejected"

/-- The `$set` document of the admin-decision update: status, updated_at,
and the note when it is truthy. -/
def applySet (new_status : String) (note : Option String) (now : Nat)
    (o : StoredOrder) : StoredOrder :=
  { o with
    status := new_status
    updated_at := now
    note := if truthyOpt note then note else o.note }

/-- Response body `{"id": ..., "status": ...}` of the verify endpoints. -/
structure VerifyResponse where
  id : String
  status : String
deriving Repr, DecidableEq

/-- Outcome of one admin-decision request: HTTP result, the store afterwards,
and the e-mail addresses to which a notification was dispatched. -/
structure DecisionOutcome where
  result : Except HttpError VerifyResponse
  store : Store
  notified : List String

/-- Request body of POST /api/orders (src/main.py OrderCreate, pydantic
Literal fields; e-mail format validation is elided). -/
structure OrderCreate where
  email : String
  plan : String
  payment_method : String
  proof_image : Option String
deriving Repr, DecidableEq

/-- pydantic `Literal['ebook', 'kelas', 'template']`. -/
def validPlan (p : String) : Bool :=
  p == "ebook" || p == "kelas" || p == "template"

/-- pydantic `Literal['DANA', 'OVO', 'GOPAY', 'BRI']`. -/
def validPaymentMethod (m : String) : Bool :=
  m == "DANA" || m == "OVO" || m == "GOPAY" || m == "BRI"

/-- Request body of POST /api/orders in src/backend/main.py: the
schemas.Order model, whose plan/payment_method are plain strings and which
also admits caller-supplied `status` and `note`. -/
structure OrderIn where
  email : String
  plan : String
  payment_method : String
  proof_image : Option String
  status : Option String
  note : Option String
deriving Repr, DecidableEq

/-- An order as it appears in a GET /api/orders listing: `id` stringified,
`proof_image` possibly redacted, `has_proof` present only when set. -/
structure OrderProjection where
  id : String
  email : String
  plan : String
  payment_method : String
  proof_image : Option String
  has_proof : Option Bool
  status : String
  note : Option String
deriving Repr, DecidableEq

/-- Gateway webhook JSON: the keys read by the endpoints. -/
structure WebhookPayload where
  order_id : Option String
  paid : Option Bool
  status : Option String
deriving Repr, DecidableEq

/-- SMTP configuration and transport health (src/backend/main.py env vars
and the smtplib session). -/
structure EmailEnv where
  configured : Bool
  transportOk : Bool
deriving Repr, DecidableEq

/-- src/backend/main.py send_email: skips silently when SMTP is not
configured, returns delivery success otherwise; transport errors are caught
and become `false`. -/
def send_email (env : EmailEnv) : Bool :=
  env.configured && env.transportOk

/-- Subject selection of src/backend/main.py send_status_email. -/
def emailSubject (status : String) : String :=
  if status = "verified" then "Pesanan Terverifikasi — Akses Anda Siap"
  else if status = "rejected" then "Verifikasi Gagal — Perlu Tindakan"
  else "Status Pesanan Anda"

/-- src/backend/main.py send_status_email: returns early when the order has
no e-mail address, otherwise attempts delivery to it.  Result: delivered
flag and the list of addresses a notification was dispatched to (message
rendering is summarised by `emailSubject`). -/
def send_status_email (env : EmailEnv) (o : StoredOrder) : Bool × List String :=
  if o.email = "" then (false, [])
  else (send_email env, [o.email])

/-- `payload.get("paid") or payload.get("status") in {"PAID", "SETTLED",
"CAPTURED", "SUCCESS"}` of src/backend/main.py payment_webhook. -/
def paidStatuses : List String := ["PAID", "SETTLED", "CAPTURED", "SUCCESS"]

def webhookPaid (p : WebhookPayload) : Bool :=
  p.paid == some true ||
    (match p.status with
     | some s => paidStatuses.contains s
     | none => false)

/-- Response body `{"ok": ..., "id": ..., "status": ...}` of the backend
webhook. -/
structure WebhookResponse where
  ok : Bool
  id : String
  status : String
deriving Repr, DecidableEq

/-- Outcome of one backend webhook request. -/
structure WebhookOutcome where
  result : Except HttpError WebhookResponse
  store : Store
  notified : List String

namespace MainApp

/-- src/main.py create_order: the pydantic Literal validation of OrderCreate
rejects out-of-set plan or payment_method with a 422 before the handler runs;
otherwise the handler derives the initial status from the truthiness of
proof_image and inserts the document. -/
def create_order (o : OrderCreate) (st : Store) :
    (Except HttpError (String × String)) × Store :=
  if validPlan o.plan ∧ validPaymentMethod o.payment_method then
    let status := if truthyOpt o.proof_image then "submitted" else "pending"
    let doc : StoredOrder :=
      { email := o.email, plan := o.plan, payment_method := o.payment_method
        proof_image := o.proof_image, status := status, note := none
        updated_at := 0 }
    let oid := natToHex24 st.counter
    (.ok (oid, status), ⟨st.docs ++ [(oid, doc)], st.counter + 1⟩)
  else (.error ⟨422, "validation error"⟩, st)

/-- src/main.py list_orders loop body: stringify `_id` into `id`, and set
`proof_image` to `None` whenever the key is present (it always is for
documents written by the creation paths); no `has_proof` flag is produced. -/
def projectDoc (p : String × StoredOrder) : OrderProjection :=
  { id := p.1, email := p.2.email, plan := p.2.plan
    payment_method := p.2.payment_method, proof_image := none
    has_proof := none, status := p.2.status, note := p.2.note }

/-- src/main.py list_orders. -/
def list_orders (st : Store) (email : Option String) (limit : Nat) :
    List OrderProjection :=
  (get_documents st email limit).map projectDoc

/-- src/main.py verify_order: Depends(require_admin) runs before the handler;
then the handler checks order_id truthiness, the action literal, ObjectId
parsing, performs the unconditional `$set` update, and 404s when nothing
matched.  No notification exists in this variant. -/
def verify_order (now : Nat) (cred : Credential) (a : VerifyAction)
    (st : Store) : DecisionOutcome :=
  match require_admin now cred with
  | .error e => ⟨.error e, st, []⟩
  | .ok _ =>
    if a.order_id = "" then ⟨.error ⟨400, "order_id required"⟩, st, []⟩
    else if ¬ (a.action = "verify" ∨ a.action = "reject") then
      ⟨.error ⟨400, "Invalid action"⟩, st, []⟩
    else if ¬ isValidOid a.order_id then
      ⟨.error ⟨400, "Invalid order_id"⟩, st, []⟩
    else
      let new_status := targetStatus a.action
      let res := updateOne st a.order_id (applySet new_status a.note now)
      if res.1 = 0 then ⟨.error ⟨404, "Order not found"⟩, res.2, []⟩
      else ⟨.ok ⟨a.order_id, new_status⟩, res.2, []⟩

/-- Keys of the webhook JSON object, as reported by the placeholder. -/
def payloadKeys (p : WebhookPayload) : List String :=
  (if p.order_id.isSome then ["order_id"] else []) ++
  (if p.paid.isSome then ["paid"] else []) ++
  (if p.status.isSome then ["status"] else [])

/-- Acknowledgement body of the src/main.py webhook placeholder. -/
structure WebhookAck where
  received : Bool
  payload_keys : List String
deriving Repr, DecidableEq

/-- Outcome of one src/main.py webhook request. -/
structure PlaceholderOutcome where
  ack : WebhookAck
  store : Store
  notified : List String
deriving Repr, DecidableEq

/-- src/main.py payment_webhook: a no-op placeholder that echoes the payload
keys and touches neither the store nor the mailer. -/
def payment_webhook (payload : WebhookPayload) (st : Store) : PlaceholderOutcome :=
  ⟨⟨true, payloadKeys payload⟩, st, []⟩

end MainApp

namespace Backend

/-- src/backend/main.py create_order: no closed-set validation (schemas.Order
takes plain strings); a truthy caller-supplied `status` short-circuits the
derived initial status via Python `or`. -/
def create_order (o : OrderIn) (st : Store) : (String × String) × Store :=
  let status :=
    if truthyOpt o.proof_image then orDefault o.status "submitted"
    else orDefault o.status "pending"
  let doc : StoredOrder :=
    { email := o.email, plan := o.plan, payment_method := o.payment_method
      proof_image := o.proof_image, status := status, note := o.note
      updated_at := 0 }
  let oid := natToHex24 st.counter
  ((oid, status), ⟨st.docs ++ [(oid, doc)], st.counter + 1⟩)

/-- src/backend/main.py list_orders loop body: only a truthy proof_image is
replaced by `has_proof = True` and a nulled image; otherwise the document
passes through unchanged and no `has_proof` key is produced. -/
def projectDoc (p : String × StoredOrder) : OrderProjection :=
  if truthyOpt p.2.proof_image then
    { id := p.1, email := p.2.email, plan := p.2.plan
      payment_method := p.2.payment_method, proof_image := none
      has_proof := some true, status := p.2.status, note := p.2.note }
  else
    { id := p.1, email := p.2.email, plan := p.2.plan
      payment_method := p.2.payment_method, proof_image := p.2.proof_image
      has_proof := none, status := p.2.status, note := p.2.note }

/-- src/backend/main.py list_orders. -/
def list_orders (st : Store) (email : Option String) (limit : Nat) :
    List OrderProjection :=
  (get_documents st email limit).map projectDoc

/-- src/backend/main.py verify_order: no authorization of any kind; parse
the id, find the order (404 when absent), overwrite status/note/updated_at,
re-fetch, and dispatch the status e-mail (failures swallowed). -/
def verify_order (env : EmailEnv) (now : Nat) (p : VerifyAction)
    (st : Store) : DecisionOutcome :=
  if ¬ isValidOid p.order_id then ⟨.error ⟨400, "Invalid order_id"⟩, st, []⟩
  else
    match findOne st p.order_id with
    | none => ⟨.error ⟨404, "Order not found"⟩, st, []⟩
    | some _ =>
      let new_status := targetStatus p.action
      let res := updateOne st p.order_id (applySet new_status p.note now)
      let notified :=
        match findOne res.2 p.order_id with
        | some updated => (send_status_email env updated).2
        | none => []
      ⟨.ok ⟨p.order_id, new_status⟩, res.2, notified⟩

/-- src/backend/main.py payment_webhook: 400 on a missing (falsy) or
unparsable order_id; otherwise computes the paid indicator, overwrites
status/updated_at without any existence check, re-fetches and dispatches the
status e-mail (a `None` fetch makes send_status_email raise, which the
`except` swallows: no notification). -/
def payment_webhook (env : EmailEnv) (now : Nat) (payload : WebhookPayload)
    (st : Store) : WebhookOutcome :=
  let paid := webhookPaid payload
  match payload.order_id with
  | none => ⟨.error ⟨400, "order_id missing"⟩, st, []⟩
  | some oid =>
    if oid = "" then ⟨.error ⟨400, "order_id missing"⟩, st, []⟩
    else if ¬ isValidOid oid then ⟨.error ⟨400, "Invalid order_id"⟩, st, []⟩
    else
      let new_status := if paid then "verified" else "rejected"
      let res := updateOne st oid
        (fun o => { o with status := new_status, updated_at := now })
      let notified :=
        match findOne res.2 oid with
        | some updated => (send_status_email env updated).2
        | none => []
      ⟨.ok ⟨true, oid, new_status⟩, res.2, notified⟩

end Backend

/-! Concrete fixtures for witnesses and counterexamples. -/

/-- A well-formed 24-hex ObjectId. -/
def oidA : String := "0123456789abcdef01234567"

def adminClaims : TokenClaims := ⟨"Admin, M.Sadri", "admin", 0, 100⟩

def credAdmin : Credential := .signed adminClaims

def orderPending : StoredOrder :=
  ⟨"a@b.com", "ebook", "DANA", none, "pending", none, 0⟩

def orderVerified : StoredOrder :=
  ⟨"a@b.com", "ebook", "DANA", some "img", "verified", none, 0⟩

def orderWithProof : StoredOrder :=
  ⟨"a@b.com", "kelas", "OVO", some "base64img", "submitted", none, 0⟩

def storeA : Store := ⟨[(oidA, orderPending)], 1⟩

def storeV : Store := ⟨[(oidA, orderVerified)], 1⟩

def storeP : Store := ⟨[(oidA, orderWithProof)], 1⟩

/-! ## Helper lemmas about the store adapter and the gate -/

theorem findDocs_updateDocs_self (docs : List (String × StoredOrder))
    (oid : String) (f : StoredOrder → StoredOrder) (o : StoredOrder)
    (h : findDocs docs oid = some o) :
    findDocs (updateDocs docs oid f) oid = some (f o) := by
  induction docs with
  | nil => simp [findDocs] at h
  | cons p rest ih =>
    by_cases hp : p.1 = oid
    · simp [findDocs, hp] at h
      simp [findDocs, updateDocs, hp, h]
    · simp [findDocs, hp] at h
      simp [findDocs, updateDocs, hp, ih h]

theorem matchedCount_pos (docs : List (String × StoredOrder)) (oid : String)
    (o : StoredOrder) (h : findDocs docs oid = some o) :
    matchedCount docs oid = 1 := by
  simp [matchedCount, h]

theorem oid_ne_empty (s : String) (h : isValidOid s = true) : ¬ s = "" := by
  intro he
  subst he
  simp [isValidOid] at h

theorem applySet_email (ns : String) (note : Option String) (now : Nat)
    (o : StoredOrder) : (applySet ns note now o).email = o.email := rfl

theorem applySet_status (ns : String) (note : Option String) (now : Nat)
    (o : StoredOrder) : (applySet ns note now o).status = ns := rfl

theorem require_admin_error_401 (now : Nat) (cred : Credential) (e : HttpError)
    (h : require_admin now cred = .error e) : e.status_code = 401 := by
  cases cred with
  | missing =>
    simp [require_admin] at h
    simp [← h]
  | malformed =>
    simp [require_admin] at h
    simp [← h]
  | signed c =>
    simp only [require_admin] at h
    split at h
    · cases h; rfl
    · split at h
      · cases h; rfl
      · cases h

/-- Characterisation of a successful src/main.py admin decision: with a
passing credential, a well-formed action and an existing order, the endpoint
answers ok and rewrites exactly the matched document. -/
theorem mainVerify_ok (now : Nat) (cred : Credential) (a : VerifyAction)
    (st : Store) (o : StoredOrder) (c : TokenClaims)
    (hadm : require_admin now cred = .ok c)
    (hact : a.action = "verify" ∨ a.action = "reject")
    (hoid : isValidOid a.order_id = true)
    (hfind : findOne st a.order_id = some o) :
    MainApp.verify_order now cred a st =
      ⟨.ok ⟨a.order_id, targetStatus a.action⟩,
       ⟨updateDocs st.docs a.order_id
          (applySet (targetStatus a.action) a.note now), st.counter⟩,
       []⟩ := by
  have hne : ¬ a.order_id = "" := oid_ne_empty _ hoid
  have hm : matchedCount st.docs a.order_id = 1 :=
    matchedCount_pos _ _ _ hfind
  simp [MainApp.verify_order, hadm, hne, hact, hoid, updateOne, hm]

/-- Characterisation of a successful src/backend/main.py admin decision:
no credential is consulted; an existing order is overwritten and the status
e-mail dispatched to the updated document's address. -/
theorem backendVerify_ok (env : EmailEnv) (now : Nat) (p : VerifyAction)
    (st : Store) (o : StoredOrder)
    (hoid : isValidOid p.order_id = true)
    (hfind : findOne st p.order_id = some o) :
    Backend.verify_order env now p st =
      ⟨.ok ⟨p.order_id, targetStatus p.action⟩,
       ⟨updateDocs st.docs p.order_id
          (applySet (targetStatus p.action) p.note now), st.counter⟩,
       (send_status_email env (applySet (targetStatus p.action) p.note now o)).2⟩ := by
  have hup : findDocs (updateDocs st.docs p.order_id
      (applySet (targetStatus p.action) p.note now)) p.order_id =
      some (applySet (targetStatus p.action) p.note now o) :=
    findDocs_updateDocs_self _ _ _ _ hfind
  have hf : findDocs st.docs p.order_id = some o := hfind
  simp [Backend.verify_order, hoid, hf, updateOne,
    matchedCount_pos _ _ _ hfind, findOne, hup]

/-- Characterisation of the src/backend/main.py webhook on an existing
order: status becomes verified or rejected according to the combined paid
indicator and the status e-mail is dispatched to the updated document. -/
theorem backendWebhook_ok (env : EmailEnv) (now : Nat)
    (payload : WebhookPayload) (st : Store) (o : StoredOrder) (oid : String)
    (hid : payload.order_id = some oid)
    (hoid : isValidOid oid = true)
    (hfind : findOne st oid = some o) :
    Backend.payment_webhook env now payload st =
      ⟨.ok ⟨true, oid, if webhookPaid payload then "verified" else "rejected"⟩,
       ⟨updateDocs st.docs oid
          (fun d => { d with
            status := if webhookPaid payload then "verified" else "rejected"
            updated_at := now }), st.counter⟩,
       (send_status_email env
          { o with
            status := if webhookPaid payload then "verified" else "rejected"
            updated_at := now }).2⟩ := by
  have hne : ¬ oid = "" := oid_ne_empty _ hoid
  have hup : findDocs (updateDocs st.docs oid
      (fun d => { d with
        status := if webhookPaid payload then "verified" else "rejected"
        updated_at := now })) oid =
      some { o with
        status := if webhookPaid payload then "verified" else "rejected"
        updated_at := now } :=
    findDocs_updateDocs_self _ _ _ _ hfind
  simp [Backend.payment_webhook, hid, hne, hoid, updateOne,
    matchedCount_pos _ _ _ hfind, findOne, hup]

/-! ## Claim theorems -/

/-- Claim C1, counterexample: the src/backend/main.py admin-decision endpoint
takes no credential at all; a request without any credential succeeds and
mutates the stored order from pending to verified, refuting the claim that
every uncredentialed admin-decision request is rejected before any storage
mutation. -/
theorem C1_counterexample :
    (Backend.verify_order ⟨false, false⟩ 5 ⟨oidA, "verify", none⟩ storeA).result
      = .ok ⟨oidA, "verified"⟩ ∧
    statusOf (Backend.verify_order ⟨false, false⟩ 5 ⟨oidA, "verify", none⟩
      storeA).store oidA = some "verified" ∧
    orderPending.status = "pending" :=
  ⟨rfl, rfl, rfl⟩

/-- Claim C1 (amended): in the src/main.py variant, every admin-decision
request whose credential fails the gate (missing, malformed, expired, or
non-admin role) is rejected with a 401 error, the store is unchanged and no
notification is dispatched; the src/backend/main.py variant enforces no
authorization at all. -/
theorem C1_auth_before_mutation (now : Nat) (cred : Credential)
    (a : VerifyAction) (st : Store)
    (h : authFails now cred = true) :
    (∃ e : HttpError, (MainApp.verify_order now cred a st).result = .error e ∧
      e.status_code = 401) ∧
    (MainApp.verify_order now cred a st).store = st ∧
    (MainApp.verify_order now cred a st).notified = [] := by
  cases he : require_admin now cred with
  | ok c => simp [authFails, he] at h
  | error e =>
    refine ⟨⟨e, ?_, require_admin_error_401 now cred e he⟩, ?_, ?_⟩ <;>
      simp [MainApp.verify_order, he]

/-- Witness for C1: a concrete uncredentialed request against a concrete
store is rejected with 401 and leaves the store untouched. -/
theorem C1_auth_before_mutation_witness :
    authFails 0 Credential.missing = true ∧
    ((∃ e : HttpError,
        (MainApp.verify_order 0 Credential.missing ⟨oidA, "verify", none⟩
          storeA).result = .error e ∧ e.status_code = 401) ∧
      (MainApp.verify_order 0 Credential.missing ⟨oidA, "verify", none⟩
        storeA).store = storeA ∧
      (MainApp.verify_order 0 Credential.missing ⟨oidA, "verify", none⟩
        storeA).notified = []) :=
  ⟨rfl, C1_auth_before_mutation 0 Credential.missing ⟨oidA, "verify", none⟩
    storeA rfl⟩

/-- Claim C2, counterexample: on an order already in the terminal status
verified, a contradictory admin decision flips the stored status to rejected
and reports success in both variants, and a webhook delivery with a falsy
paid indicator flips it as well, refuting the claim that no admin-decision
or webhook transition moves a terminal order to a different status. -/
theorem C2_counterexample :
    orderVerified.status = "verified" ∧
    statusOf (MainApp.verify_order 5 credAdmin ⟨oidA, "reject", none⟩
      storeV).store oidA = some "rejected" ∧
    (MainApp.verify_order 5 credAdmin ⟨oidA, "reject", none⟩ storeV).result
      = .ok ⟨oidA, "rejected"⟩ ∧
    statusOf (Backend.verify_order ⟨true, true⟩ 5 ⟨oidA, "reject", none⟩
      storeV).store oidA = some "rejected" ∧
    statusOf (Backend.payment_webhook ⟨true, true⟩ 5 ⟨some oidA, none, none⟩
      storeV).store oidA = some "rejected" :=
  ⟨rfl, rfl, rfl, rfl, rfl⟩

/-- Claim C2 (amended): re-applying the matching terminal action (or
re-delivering a webhook with the matching outcome) succeeds and leaves the
stored status unchanged, but neither variant protects terminal states: every
admin decision in src/main.py and src/backend/main.py and every webhook
delivery in src/backend/main.py, including a contradictory one, overwrites
the stored status with its target. -/
theorem C2_terminal_overwrite (env : EmailEnv) (now : Nat) (cred : Credential)
    (a : VerifyAction) (st : Store) (o : StoredOrder) (c : TokenClaims)
    (pb : Option Bool) (ps : Option String)
    (hadm : require_admin now cred = .ok c)
    (hact : a.action = "verify" ∨ a.action = "reject")
    (hoid : isValidOid a.order_id = true)
    (hfind : findOne st a.order_id = some o)
    (hterm : o.status = "verified" ∨ o.status = "rejected") :
    ((MainApp.verify_order now cred a st).result =
        .ok ⟨a.order_id, targetStatus a.action⟩ ∧
      statusOf (MainApp.verify_order now cred a st).store a.order_id =
        some (targetStatus a.action) ∧
      (o.status = targetStatus a.action →
        statusOf (MainApp.verify_order now cred a st).store a.order_id =
          some o.status)) ∧
    ((Backend.verify_order env now a st).result =
        .ok ⟨a.order_id, targetStatus a.action⟩ ∧
      statusOf (Backend.verify_order env now a st).store a.order_id =
        some (targetStatus a.action) ∧
      (o.status = targetStatus a.action →
        statusOf (Backend.verify_order env now a st).store a.order_id =
          some o.status)) ∧
    (statusOf (Backend.payment_webhook env now ⟨some a.order_id, pb, ps⟩
        st).store a.order_id =
      some (if webhookPaid ⟨some a.order_id, pb, ps⟩ then "verified"
        else "rejected") ∧
      (o.status = (if webhookPaid ⟨some a.order_id, pb, ps⟩ then "verified"
          else "rejected") →
        statusOf (Backend.payment_webhook env now ⟨some a.order_id, pb, ps⟩
          st).store a.order_id = some o.status)) := by
  have hup := findDocs_updateDocs_self st.docs a.order_id
    (applySet (targetStatus a.action) a.note now) o hfind
  have hupw := findDocs_updateDocs_self st.docs a.order_id
    (fun d => { d with
      status := if webhookPaid ⟨some a.order_id, pb, ps⟩ then "verified"
        else "rejected"
      updated_at := now }) o hfind
  refine ⟨?_, ?_, ?_⟩
  · rw [mainVerify_ok now cred a st o c hadm hact hoid hfind]
    refine ⟨rfl, ?_, fun hsame => ?_⟩
    · simp [statusOf, findOne, hup, applySet]
    · rw [hsame]
      simp [statusOf, findOne, hup, applySet]
  · rw [backendVerify_ok env now a st o hoid hfind]
    refine ⟨rfl, ?_, fun hsame => ?_⟩
    · simp [statusOf, findOne, hup, applySet]
    · rw [hsame]
      simp [statusOf, findOne, hup, applySet]
  · rw [backendWebhook_ok env now ⟨some a.order_id, pb, ps⟩ st o a.order_id
      rfl hoid hfind]
    refine ⟨?_, fun hsame => ?_⟩
    · simp [statusOf, findOne, hupw]
    · rw [hsame]
      simp [statusOf, findOne, hupw]

/-- Witness for C2: re-verifying a concrete already-verified order through
the src/main.py admin path, the src/backend/main.py admin path and a paid
webhook delivery succeeds each time and the stored status stays verified. -/
theorem C2_terminal_overwrite_witness :
    (require_admin 5 credAdmin = .ok adminClaims) ∧
    (findOne storeV oidA = some orderVerified) ∧
    (((MainApp.verify_order 5 credAdmin ⟨oidA, "verify", none⟩ storeV).result =
        .ok ⟨oidA, targetStatus "verify"⟩ ∧
      statusOf (MainApp.verify_order 5 credAdmin ⟨oidA, "verify", none⟩
        storeV).store oidA = some (targetStatus "verify") ∧
      (orderVerified.status = targetStatus "verify" →
        statusOf (MainApp.verify_order 5 credAdmin ⟨oidA, "verify", none⟩
          storeV).store oidA = some orderVerified.status)) ∧
    ((Backend.verify_order ⟨true, true⟩ 5 ⟨oidA, "verify", none⟩
        storeV).result = .ok ⟨oidA, targetStatus "verify"⟩ ∧
      statusOf (Backend.verify_order ⟨true, true⟩ 5 ⟨oidA, "verify", none⟩
        storeV).store oidA = some (targetStatus "verify") ∧
      (orderVerified.status = targetStatus "verify" →
        statusOf (Backend.verify_order ⟨true, true⟩ 5 ⟨oidA, "verify", none⟩
          storeV).store oidA = some orderVerified.status)) ∧
    (statusOf (Backend.payment_webhook ⟨true, true⟩ 5
        ⟨some oidA, some true, none⟩ storeV).store oidA =
      some (if webhookPaid ⟨some oidA, some true, none⟩ then "verified"
        else "rejected") ∧
      (orderVerified.status =
          (if webhookPaid ⟨some oidA, some true, none⟩ then "verified"
            else "rejected") →
        statusOf (Backend.payment_webhook ⟨true, true⟩ 5
          ⟨some oidA, some true, none⟩ storeV).store oidA =
          some orderVerified.status))) :=
  ⟨rfl, rfl,
    C2_terminal_overwrite ⟨true, true⟩ 5 credAdmin ⟨oidA, "verify", none⟩
      storeV orderVerified adminClaims (some true) none rfl (Or.inl rfl)
      (by decide) rfl (Or.inl rfl)⟩

/-- Claim C3 (confirmed): in both variants, applying the same admin decision
twice in sequence yields the same final stored status after the second call
as after the first, and the second call returns success. -/
theorem C3_idempotent (env : EmailEnv) (na nb : Nat) (cred : Credential)
    (a : VerifyAction) (st : Store) (o : StoredOrder) (ca cb : TokenClaims)
    (hadma : require_admin na cred = .ok ca)
    (hadmb : require_admin nb cred = .ok cb)
    (hact : a.action = "verify" ∨ a.action = "reject")
    (hoid : isValidOid a.order_id = true)
    (hfind : findOne st a.order_id = some o) :
    ((MainApp.verify_order nb cred a
        (MainApp.verify_order na cred a st).store).result =
        .ok ⟨a.order_id, targetStatus a.action⟩ ∧
      statusOf (MainApp.verify_order nb cred a
          (MainApp.verify_order na cred a st).store).store a.order_id =
        statusOf (MainApp.verify_order na cred a st).store a.order_id) ∧
    ((Backend.verify_order env nb a
        (Backend.verify_order env na a st).store).result =
        .ok ⟨a.order_id, targetStatus a.action⟩ ∧
      statusOf (Backend.verify_order env nb a
          (Backend.verify_order env na a st).store).store a.order_id =
        statusOf (Backend.verify_order env na a st).store a.order_id) := by
  have hup1 := findDocs_updateDocs_self st.docs a.order_id
    (applySet (targetStatus a.action) a.note na) o hfind
  constructor
  · rw [mainVerify_ok na cred a st o ca hadma hact hoid hfind]
    have hfind1 : findOne ⟨updateDocs st.docs a.order_id
        (applySet (targetStatus a.action) a.note na), st.counter⟩ a.order_id =
        some (applySet (targetStatus a.action) a.note na o) := hup1
    rw [mainVerify_ok nb cred a _ _ cb hadmb hact hoid hfind1]
    have hup2 := findDocs_updateDocs_self _ a.order_id
      (applySet (targetStatus a.action) a.note nb) _ hfind1
    exact ⟨rfl, by simp [statusOf, findOne, hup1, hup2, applySet]⟩
  · rw [backendVerify_ok env na a st o hoid hfind]
    have hfind1 : findOne ⟨updateDocs st.docs a.order_id
        (applySet (targetStatus a.action) a.note na), st.counter⟩ a.order_id =
        some (applySet (targetStatus a.action) a.note na o) := hup1
    rw [backendVerify_ok env nb a _ _ hoid hfind1]
    have hup2 := findDocs_updateDocs_self _ a.order_id
      (applySet (targetStatus a.action) a.note nb) _ hfind1
    exact ⟨rfl, by simp [statusOf, findOne, hup1, hup2, applySet]⟩

/-- Witness for C3: verifying a concrete pending order twice succeeds both
times and the stored status after the second call equals the status after
the first. -/
theorem C3_idempotent_witness :
    (require_admin 5 credAdmin = .ok adminClaims) ∧
    (findOne storeA oidA = some orderPending) ∧
    (((MainApp.verify_order 6 credAdmin ⟨oidA, "verify", none⟩
        (MainApp.verify_order 5 credAdmin ⟨oidA, "verify", none⟩
          storeA).store).result = .ok ⟨oidA, targetStatus "verify"⟩ ∧
      statusOf (MainApp.verify_order 6 credAdmin ⟨oidA, "verify", none⟩
          (MainApp.verify_order 5 credAdmin ⟨oidA, "verify", none⟩
            storeA).store).store oidA =
        statusOf (MainApp.verify_order 5 credAdmin ⟨oidA, "verify", none⟩
          storeA).store oidA) ∧
    ((Backend.verify_order ⟨true, true⟩ 6 ⟨oidA, "verify", none⟩
        (Backend.verify_order ⟨true, true⟩ 5 ⟨oidA, "verify", none⟩
          storeA).store).result = .ok ⟨oidA, targetStatus "verify"⟩ ∧
      statusOf (Backend.verify_order ⟨true, true⟩ 6 ⟨oidA, "verify", none⟩
          (Backend.verify_order ⟨true, true⟩ 5 ⟨oidA, "verify", none⟩
            storeA).store).store oidA =
        statusOf (Backend.verify_order ⟨true, true⟩ 5 ⟨oidA, "verify", none⟩
          storeA).store oidA)) :=
  ⟨rfl, rfl,
    C3_idempotent ⟨true, true⟩ 5 6 credAdmin ⟨oidA, "verify", none⟩ storeA
      orderPending adminClaims adminClaims rfl rfl (Or.inl rfl) (by decide) rfl⟩

theorem truthyOpt_none : truthyOpt none = false := rfl

theorem orDefault_of_falsy (s : Option String) (b : String)
    (h : truthyOpt s = false) : orDefault s b = b := by
  cases s with
  | none => rfl
  | some str =>
    by_cases hs : str = ""
    · simp [orDefault, hs]
    · simp [truthyOpt, truthyStr, hs] at h

/-- Claim C4, counterexample: the src/backend/main.py creation endpoint
accepts a caller-supplied status; an input with no proof_image but
`status = "verified"` is persisted as verified, not pending, refuting the
claimed iff over every valid creation input. -/
theorem C4_counterexample :
    (Backend.create_order
      ⟨"a@b.com", "ebook", "DANA", none, some "verified", none⟩
      ⟨[], 0⟩).1.2 = "verified" ∧
    truthyOpt (none : Option String) = false ∧
    ¬ (Backend.create_order
      ⟨"a@b.com", "ebook", "DANA", none, some "verified", none⟩
      ⟨[], 0⟩).1.2 = "pending" :=
  ⟨rfl, rfl, by decide⟩

/-- Claim C4 (amended): the initial status is submitted iff proof_image is
non-empty and pending otherwise — unconditionally in the src/main.py
variant, and in the src/backend/main.py variant only when the request
supplies no (or an empty) status field. -/
theorem C4_initial_status (o : OrderCreate) (ob : OrderIn) (st st2 : Store)
    (hplan : validPlan o.plan = true)
    (hpm : validPaymentMethod o.payment_method = true)
    (hb : truthyOpt ob.status = false) :
    (MainApp.create_order o st).1 = .ok (natToHex24 st.counter,
      if truthyOpt o.proof_image then "submitted" else "pending") ∧
    ((if truthyOpt o.proof_image then "submitted" else "pending") =
        "submitted" ↔ truthyOpt o.proof_image = true) ∧
    (Backend.create_order ob st2).1.2 =
      (if truthyOpt ob.proof_image then "submitted" else "pending") := by
  refine ⟨?_, ?_, ?_⟩
  · simp [MainApp.create_order, hplan, hpm]
  · cases truthyOpt o.proof_image <;> simp
  · cases hp : truthyOpt ob.proof_image <;>
      simp [Backend.create_order, hp, orDefault_of_falsy _ _ hb]

/-- Witness for C4: a concrete creation with a proof image yields submitted
in src/main.py, and a concrete status-free creation without proof yields
pending in src/backend/main.py. -/
theorem C4_initial_status_witness :
    validPlan "ebook" = true ∧ validPaymentMethod "DANA" = true ∧
    truthyOpt (none : Option String) = false ∧
    ((MainApp.create_order ⟨"a@b.com", "ebook", "DANA", some "img"⟩
        ⟨[], 0⟩).1 = .ok (natToHex24 0,
          if truthyOpt (some "img") then "submitted" else "pending") ∧
      ((if truthyOpt (some "img") then "submitted" else "pending") =
          "submitted" ↔ truthyOpt (some "img") = true) ∧
      (Backend.create_order ⟨"c@d.com", "kelas", "OVO", none, none, none⟩
        ⟨[], 0⟩).1.2 =
          (if truthyOpt (none : Option String) then "submitted" else "pending")) :=
  ⟨rfl, rfl, rfl,
    C4_initial_status ⟨"a@b.com", "ebook", "DANA", some "img"⟩
      ⟨"c@d.com", "kelas", "OVO", none, none, none⟩ ⟨[], 0⟩ ⟨[], 0⟩
      rfl rfl rfl⟩

/-- Claim C5, counterexample: the src/main.py webhook is a placeholder that
leaves an existing order pending even on a truthy paid indicator, and the
src/backend/main.py webhook drives an order to verified although its `paid`
field is falsy, because the payload's status is "PAID"; both refute the
claim as stated. -/
theorem C5_counterexample :
    (MainApp.payment_webhook ⟨some oidA, some true, none⟩ storeA).store =
      storeA ∧
    statusOf (MainApp.payment_webhook ⟨some oidA, some true, none⟩
      storeA).store oidA = some "pending" ∧
    statusOf (Backend.payment_webhook ⟨true, true⟩ 7
      ⟨some oidA, some false, some "PAID"⟩ storeA).store oidA =
      some "verified" :=
  ⟨rfl, rfl, rfl⟩

/-- Claim C5 (amended): the src/backend/main.py webhook drives an existing
order to verified exactly when the combined paid indicator holds — a truthy
`paid` field or a status among PAID, SETTLED, CAPTURED, SUCCESS — and to
rejected otherwise; the src/main.py webhook is a no-op placeholder that
never alters the store. -/
theorem C5_webhook (env : EmailEnv) (n : Nat) (payload : WebhookPayload)
    (st : Store) (oid : String) (o : StoredOrder)
    (hid : payload.order_id = some oid)
    (hoid : isValidOid oid = true)
    (hfind : findOne st oid = some o) :
    statusOf (Backend.payment_webhook env n payload st).store oid =
      some (if webhookPaid payload then "verified" else "rejected") ∧
    (Backend.payment_webhook env n payload st).result =
      .ok ⟨true, oid, if webhookPaid payload then "verified" else "rejected"⟩ ∧
    (∀ (q : WebhookPayload) (st2 : Store),
      (MainApp.payment_webhook q st2).store = st2) := by
  rw [backendWebhook_ok env n payload st o oid hid hoid hfind]
  have hup := findDocs_updateDocs_self st.docs oid
    (fun d => { d with
      status := if webhookPaid payload then "verified" else "rejected"
      updated_at := n }) o hfind
  exact ⟨by simp [statusOf, findOne, hup], rfl, fun q st2 => rfl⟩

/-- Witness for C5: a concrete webhook with `paid = true` on a concrete
pending order drives it to verified. -/
theorem C5_webhook_witness :
    isValidOid oidA = true ∧ findOne storeA oidA = some orderPending ∧
    (statusOf (Backend.payment_webhook ⟨true, true⟩ 7
        ⟨some oidA, some true, none⟩ storeA).store oidA =
      some (if webhookPaid ⟨some oidA, some true, none⟩ then "verified"
        else "rejected") ∧
    (Backend.payment_webhook ⟨true, true⟩ 7 ⟨some oidA, some true, none⟩
        storeA).result = .ok ⟨true, oidA,
          if webhookPaid ⟨some oidA, some true, none⟩ then "verified"
          else "rejected"⟩ ∧
    (∀ (q : WebhookPayload) (st2 : Store),
      (MainApp.payment_webhook q st2).store = st2)) :=
  ⟨by decide, rfl,
    C5_webhook ⟨true, true⟩ 7 ⟨some oidA, some true, none⟩ storeA oidA
      orderPending rfl (by decide) rfl⟩

/-- Claim C6, counterexample: in src/main.py a successful admin decision
reaches verified yet dispatches no notification at all (the variant has no
mailer), refuting "exactly one notification attempt per terminal
transition". -/
theorem C6_counterexample :
    (MainApp.verify_order 5 credAdmin ⟨oidA, "verify", some "ok"⟩
      storeA).result = .ok ⟨oidA, "verified"⟩ ∧
    (MainApp.verify_order 5 credAdmin ⟨oidA, "verify", some "ok"⟩
      storeA).notified = [] :=
  ⟨rfl, rfl⟩

/-- Claim C6 (amended): in src/backend/main.py, a terminal transition via
the admin-decision path or the webhook path dispatches exactly one
notification to the buyer's address, and the state of the e-mail transport
changes neither response nor store nor dispatch; the src/main.py
admin-decision path dispatches no notification. -/
theorem C6_notification (env env2 : EmailEnv) (n : Nat) (cred : Credential)
    (a : VerifyAction) (st : Store) (o : StoredOrder)
    (pb : Option Bool) (ps : Option String)
    (hoid : isValidOid a.order_id = true)
    (hfind : findOne st a.order_id = some o)
    (hemail : ¬ o.email = "") :
    (Backend.verify_order env n a st).notified = [o.email] ∧
    Backend.verify_order env n a st = Backend.verify_order env2 n a st ∧
    (Backend.payment_webhook env n ⟨some a.order_id, pb, ps⟩ st).notified =
      [o.email] ∧
    Backend.payment_webhook env n ⟨some a.order_id, pb, ps⟩ st =
      Backend.payment_webhook env2 n ⟨some a.order_id, pb, ps⟩ st ∧
    (MainApp.verify_order n cred a st).notified = [] := by
  rw [backendVerify_ok env n a st o hoid hfind,
      backendVerify_ok env2 n a st o hoid hfind,
      backendWebhook_ok env n ⟨some a.order_id, pb, ps⟩ st o a.order_id rfl
        hoid hfind,
      backendWebhook_ok env2 n ⟨some a.order_id, pb, ps⟩ st o a.order_id rfl
        hoid hfind]
  refine ⟨?_, ?_, ?_, ?_, ?_⟩
  · simp [send_status_email, applySet, hemail]
  · simp [send_status_email, applySet, hemail]
  · simp [send_status_email, hemail]
  · simp [send_status_email, hemail]
  · cases he : require_admin n cred with
    | error e => simp [MainApp.verify_order, he]
    | ok c =>
      simp only [MainApp.verify_order, he]
      split_ifs <;> rfl

/-- Witness for C6: a concrete backend decision and webhook each notify the
buyer exactly once, identically under a failing and a healthy transport,
while the concrete src/main.py decision notifies nobody. -/
theorem C6_notification_witness :
    isValidOid oidA = true ∧ findOne storeA oidA = some orderPending ∧
    ¬ orderPending.email = "" ∧
    ((Backend.verify_order ⟨true, false⟩ 5 ⟨oidA, "verify", none⟩
        storeA).notified = [orderPending.email] ∧
    Backend.verify_order ⟨true, false⟩ 5 ⟨oidA, "verify", none⟩ storeA =
      Backend.verify_order ⟨true, true⟩ 5 ⟨oidA, "verify", none⟩ storeA ∧
    (Backend.payment_webhook ⟨true, false⟩ 5 ⟨some oidA, some true, none⟩
        storeA).notified = [orderPending.email] ∧
    Backend.payment_webhook ⟨true, false⟩ 5 ⟨some oidA, some true, none⟩
        storeA =
      Backend.payment_webhook ⟨true, true⟩ 5 ⟨some oidA, some true, none⟩
        storeA ∧
    (MainApp.verify_order 5 credAdmin ⟨oidA, "verify", none⟩
        storeA).notified = []) :=
  ⟨by decide, rfl, by decide,
    C6_notification ⟨true, false⟩ ⟨true, true⟩ 5 credAdmin
      ⟨oidA, "verify", none⟩ storeA orderPending (some true) none
      (by decide) rfl (by decide)⟩

/-- Claim C7, counterexample: the src/main.py listing never produces a
`has_proof` flag, so for a stored order with a non-empty proof image the
projection does not contain `has_proof == true`, refuting the claimed iff. -/
theorem C7_counterexample :
    truthyOpt orderWithProof.proof_image = true ∧
    MainApp.list_orders storeP none 50 =
      [{ id := oidA, email := "a@b.com", plan := "kelas"
         payment_method := "OVO", proof_image := none, has_proof := none
         status := "submitted", note := none }] :=
  ⟨rfl, rfl⟩

/-- Claim C7 (amended): list projections never carry a truthy proof_image in
either variant; in src/backend/main.py each projection carries
`has_proof == true` exactly when its stored order has a non-empty
proof image, while src/main.py emits no has_proof flag at all. -/
theorem C7_redaction (st : Store) (e : Option String) (lim : Nat)
    (p : OrderProjection) (hp : p ∈ Backend.list_orders st e lim) :
    truthyOpt p.proof_image = false ∧
    (∃ d ∈ get_documents st e lim, p = Backend.projectDoc d ∧
      (p.has_proof = some true ↔ truthyOpt d.2.proof_image = true)) ∧
    (∀ q ∈ MainApp.list_orders st e lim,
      q.proof_image = none ∧ q.has_proof = none) := by
  simp only [Backend.list_orders] at hp
  obtain ⟨d, hd, rfl⟩ := List.mem_map.mp hp
  have hmain : ∀ q ∈ MainApp.list_orders st e lim,
      q.proof_image = none ∧ q.has_proof = none := by
    intro q hq
    simp only [MainApp.list_orders] at hq
    obtain ⟨d2, hd2, rfl⟩ := List.mem_map.mp hq
    exact ⟨rfl, rfl⟩
  cases h : truthyOpt d.2.proof_image with
  | true =>
    refine ⟨?_, ⟨d, hd, rfl, ?_⟩, hmain⟩ <;>
      simp [Backend.projectDoc, h, truthyOpt_none]
  | false =>
    refine ⟨?_, ⟨d, hd, rfl, ?_⟩, hmain⟩ <;>
      simp [Backend.projectDoc, h]

/-- Witness for C7: the concrete listing of a store holding one order with
a non-empty proof image satisfies the amended redaction property. -/
theorem C7_redaction_witness :
    (Backend.projectDoc (oidA, orderWithProof) ∈
      Backend.list_orders storeP none 50) ∧
    (truthyOpt (Backend.projectDoc (oidA, orderWithProof)).proof_image =
      false ∧
    (∃ d ∈ get_documents storeP none 50,
      Backend.projectDoc (oidA, orderWithProof) = Backend.projectDoc d ∧
      ((Backend.projectDoc (oidA, orderWithProof)).has_proof = some true ↔
        truthyOpt d.2.proof_image = true)) ∧
    (∀ q ∈ MainApp.list_orders storeP none 50,
      q.proof_image = none ∧ q.has_proof = none)) :=
  ⟨by decide,
    C7_redaction storeP none 50 (Backend.projectDoc (oidA, orderWithProof))
      (by decide)⟩

/-- Claim C8: evaluation of src/main.py require_admin at the failing input —
a validly signed, unexpired token whose role is "user" is answered with
401 "Invalid token", not 403 "Forbidden", because the HTTPException(403)
raised inside the `try` block is swallowed by the trailing
`except Exception`; the 401 half of the claim (missing, expired, malformed)
holds. -/
theorem C8_role_mismatch_401 :
    require_admin 5 (Credential.signed ⟨"mallory", "user", 0, 100⟩) =
      .error ⟨401, "Invalid token"⟩ ∧
    require_admin 5 Credential.missing =
      .error ⟨401, "Not authenticated"⟩ ∧
    require_admin 200 (Credential.signed ⟨"Admin, M.Sadri", "admin", 0, 100⟩) =
      .error ⟨401, "Token expired"⟩ ∧
    require_admin 5 Credential.malformed = .error ⟨401, "Invalid token"⟩ :=
  ⟨rfl, rfl, rfl, rfl⟩

/-- Claim C9, counterexample: the src/backend/main.py creation endpoint
performs no closed-set validation; an order with plan "banana" and payment
method "CASH" is persisted and acknowledged, refuting the claim that any
such request is rejected with nothing persisted. -/
theorem C9_counterexample :
    validPlan "banana" = false ∧
    (Backend.create_order ⟨"a@b.com", "banana", "CASH", none, none, none⟩
      ⟨[], 0⟩).2.docs.length = 1 ∧
    (Backend.create_order ⟨"a@b.com", "banana", "CASH", none, none, none⟩
      ⟨[], 0⟩).1.2 = "pending" :=
  ⟨rfl, rfl, rfl⟩

/-- Claim C9 (amended): in the src/main.py variant a creation request whose
plan or payment_method lies outside its closed set is rejected with a 422
validation error and the store is unchanged; the src/backend/main.py variant
accepts and persists arbitrary plan and payment_method strings. -/
theorem C9_validation (o : OrderCreate) (st : Store)
    (h : validPlan o.plan = false ∨ validPaymentMethod o.payment_method = false) :
    (MainApp.create_order o st).1 = .error ⟨422, "validation error"⟩ ∧
    (MainApp.create_order o st).2 = st := by
  have hcond : ¬ (validPlan o.plan ∧ validPaymentMethod o.payment_method) := by
    rcases h with h | h <;> simp [h]
  simp [MainApp.create_order, hcond]

/-- Witness for C9: a concrete creation with plan "banana" is rejected with
422 and leaves the concrete store unchanged. -/
theorem C9_validation_witness :
    validPlan "banana" = false ∧
    ((MainApp.create_order ⟨"a@b.com", "banana", "DANA", none⟩ storeA).1 =
      .error ⟨422, "validation error"⟩ ∧
    (MainApp.create_order ⟨"a@b.com", "banana", "DANA", none⟩ storeA).2 =
      storeA) :=
  ⟨rfl, C9_validation ⟨"a@b.com", "banana", "DANA", none⟩ storeA (Or.inl rfl)⟩

/-- Claim C10 (confirmed): in src/backend/main.py, a creation request
carrying a non-empty status value is persisted and acknowledged with that
caller-supplied status, overriding the derived initial state. -/
theorem C10_status_override (ob : OrderIn) (st : Store) (s : String)
    (hs : ob.status = some s) (hne : ¬ s = "") :
    (Backend.create_order ob st).1.2 = s ∧
    (Backend.create_order ob st).2.docs = st.docs ++
      [(natToHex24 st.counter,
        { email := ob.email, plan := ob.plan
          payment_method := ob.payment_method
          proof_image := ob.proof_image, status := s, note := ob.note
          updated_at := 0 })] := by
  have hod : orDefault ob.status "submitted" = s := by
    simp [orDefault, hs, hne]
  have hod2 : orDefault ob.status "pending" = s := by
    simp [orDefault, hs, hne]
  cases hp : truthyOpt ob.proof_image <;>
    simp [Backend.create_order, hp, hod, hod2]

/-- Witness for C10: a concrete creation carrying status "verified" and no
proof image is persisted as verified. -/
theorem C10_status_override_witness :
    (some "verified" = some ("verified" : String)) ∧ ¬ ("verified" = "") ∧
    ((Backend.create_order
        ⟨"a@b.com", "ebook", "DANA", none, some "verified", none⟩
        ⟨[], 0⟩).1.2 = "verified" ∧
    (Backend.create_order
        ⟨"a@b.com", "ebook", "DANA", none, some "verified", none⟩
        ⟨[], 0⟩).2.docs = [] ++
      [(natToHex24 0,
        { email := "a@b.com", plan := "ebook", payment_method := "DANA"
          proof_image := none, status := "verified", note := none
          updated_at := 0 })]) :=
  ⟨rfl, by decide,
    C10_status_override
      ⟨"a@b.com", "ebook", "DANA", none, some "verified", none⟩ ⟨[], 0⟩
      "verified" rfl (by decide)⟩

end ELearn
